/-
  Verification of the poker hand-evaluation and recommendation engine.

  Shallow embedding of the TypeScript sources:
    - src/lib/hand-evaluator.ts        (hand evaluator)
    - src/lib/poker-utils.ts           (RANKS, calculatePotOdds)
    - src/unnamed/part_004             (AI engine: strength, win probability,
                                        decision cascade, bluff heuristics,
                                        frequency allocation)
    - src/types/poker.ts               (data types)

  Modelling conventions:
    * JavaScript numbers are modelled as exact rationals (ℚ).  All constants in
      the source are decimal literals, and every claim under verification
      concerns comparisons against decimal thresholds, which the exact-rational
      model decides the same way as the float semantics at the inputs used.
    * The hand evaluator works on natural numbers only (rank values 2..14 and
      integer scores), exactly as the source.
    * `undefined` optional values become `Option`; optional booleans become
      `Bool` (JS truthiness: `undefined` and `false` both fail an `if`).
    * Free-text fields (`description`, `reasoning`, canned rationale strings)
      are presentational and are omitted from the embedded records; no claim
      mentions them.
    * `Math.floor` is `jsFloor` (floor toward -∞, as in JS), `Math.round` is
      `jsRound` (round half toward +∞, as in JS).
-/
import Mathlib

/-- JS `Math.floor` on the rational model of JS numbers. -/
def jsFloor (q : ℚ) : ℚ := (⌊q⌋ : ℚ)

/-- JS `Math.round` (rounds half-way cases toward +∞). -/
def jsRound (q : ℚ) : ℚ := (⌊q + 1/2⌋ : ℚ)

/-- src/types/poker.ts: `Suit`. -/
inductive Suit
  | hearts
  | diamonds
  | clubs
  | spades
deriving DecidableEq

/-- src/types/poker.ts: `Rank` ('2'..'10', 'J', 'Q', 'K', 'A'). -/
inductive Rank
  | r2 | r3 | r4 | r5 | r6 | r7 | r8 | r9 | r10
  | jack | queen | king | ace
deriving DecidableEq

/-- src/lib/hand-evaluator.ts lines 3-6: `RANK_VALUES`. -/
def rankValue : Rank → ℕ
  | .r2 => 2
  | .r3 => 3
  | .r4 => 4
  | .r5 => 5
  | .r6 => 6
  | .r7 => 7
  | .r8 => 8
  | .r9 => 9
  | .r10 => 10
  | .jack => 11
  | .queen => 12
  | .king => 13
  | .ace => 14

/-- src/lib/poker-utils.ts line 4: `RANKS` (index order '2'.. 'A'). -/
def RANKS : List Rank :=
  [.r2, .r3, .r4, .r5, .r6, .r7, .r8, .r9, .r10, .jack, .queen, .king, .ace]

/-- `RANKS.indexOf(rank)` as used by the engine (every rank occurs in RANKS). -/
def rankIndex (r : Rank) : ℕ := RANKS.indexOf r

/-- src/types/poker.ts: `Card`. -/
structure Card where
  suit : Suit
  rank : Rank
deriving DecidableEq

/-- src/types/poker.ts: `BettingRound`. -/
inductive BettingRound
  | preflop
  | flop
  | turn
  | river
deriving DecidableEq

/-- src/types/poker.ts: `ActionType`. -/
inductive ActionType
  | fold
  | check
  | call
  | bet
  | raise
  | allIn
deriving DecidableEq

/-- src/lib/hand-evaluator.ts lines 8-19: the `HandRank` enum values. -/
def HandRank.HIGH_CARD : ℕ := 1

def HandRank.PAIR : ℕ := 2

def HandRank.TWO_PAIR : ℕ := 3

def HandRank.THREE_OF_KIND : ℕ := 4

def HandRank.STRAIGHT : ℕ := 5

def HandRank.FLUSH : ℕ := 6

def HandRank.FULL_HOUSE : ℕ := 7

def HandRank.FOUR_OF_KIND : ℕ := 8

def HandRank.STRAIGHT_FLUSH : ℕ := 9

def HandRank.ROYAL_FLUSH : ℕ := 10

/-- Insert into a descending-sorted list (helper for `sortDescNat`). -/
def insertDescNat (a : ℕ) : List ℕ → List ℕ
  | [] => [a]
  | b :: l => if b < a then a :: b :: l else b :: insertDescNat a l

/-- `array.sort((a, b) => b - a)` on naturals: the descending sort.  Insertion
sort produces the same list as any comparison sort for a total order. -/
def sortDescNat (l : List ℕ) : List ℕ := l.foldr insertDescNat []

/-- Recursion of `firstOccurrences`, carrying the set of elements seen so far. -/
def firstOccurrencesAux : List ℕ → List ℕ → List ℕ
  | [], _ => []
  | a :: l, seen =>
      if seen.contains a then firstOccurrencesAux l seen
      else a :: firstOccurrencesAux l (a :: seen)

/-- `[...new Set(l)]`: the list of first occurrences, in encounter order. -/
def firstOccurrences (l : List ℕ) : List ℕ := firstOccurrencesAux l []

/-- src/lib/hand-evaluator.ts lines 82-84: the straight window scan.  For each
position `i` with at least 4 successors, tests `uniq[i] - uniq[i+4] === 4`. -/
def hasWindow5 : List ℕ → Bool
  | [] => false
  | a :: rest =>
      (match rest.drop 3 with
       | b :: _ => ((a : ℤ) - (b : ℤ) == 4)
       | [] => false)
      || hasWindow5 rest

/-- src/lib/hand-evaluator.ts lines 78-92: `checkStraight`. -/
def checkStraight (ranks : List ℕ) : Bool :=
  let uniqueRanks := sortDescNat (firstOccurrences ranks)
  if uniqueRanks.length < 5 then false
  else
    hasWindow5 uniqueRanks
    || (uniqueRanks.contains 14 && uniqueRanks.contains 5 && uniqueRanks.contains 4
        && uniqueRanks.contains 3 && uniqueRanks.contains 2)

/-- src/lib/hand-evaluator.ts lines 94-100: result record of `countRanks`. -/
structure CountRanks where
  pair : ℕ
  pairs : ℕ
  pairValues : List ℕ
  threeOfKind : ℕ
  fourOfKind : ℕ
deriving DecidableEq

/-- One iteration of the `counts.forEach` body in `countRanks`
(src/lib/hand-evaluator.ts lines 110-118), for the distinct rank `r` whose
multiplicity in `ranks` is `ranks.count r`. -/
def countRanksStep (ranks : List ℕ) (st : CountRanks) (r : ℕ) : CountRanks :=
  let c := ranks.count r
  let st1 :=
    if c = 2 then
      { st with
        pair := if st.pair = 0 then r else st.pair
        pairs := st.pairs + 1
        pairValues := st.pairValues ++ [r] }
    else st
  let st2 := if c = 3 then { st1 with threeOfKind := r } else st1
  if c = 4 then { st2 with fourOfKind := r } else st2

/-- src/lib/hand-evaluator.ts lines 94-121: `countRanks`.  The JS `Map` is
keyed by rank in insertion order, i.e. first-occurrence order of `ranks`. -/
def countRanks (ranks : List ℕ) : CountRanks :=
  (firstOccurrences ranks).foldl (countRanksStep ranks) ⟨0, 0, [], 0, 0⟩

/-- JS `Math.max(...l)` for a nonempty list of naturals. -/
def maxListNat (l : List ℕ) : ℕ := l.foldr max 0

/-- src/lib/hand-evaluator.ts lines 21-25: `HandEvaluation`.  The
presentational `description` string is omitted. -/
structure HandEvaluation where
  rank : ℕ
  value : ℕ
deriving DecidableEq

/-- src/lib/hand-evaluator.ts lines 27-76: `evaluateHand`. -/
def evaluateHand (cards : List Card) : HandEvaluation :=
  if cards.length < 5 then ⟨HandRank.HIGH_CARD, 0⟩
  else
    let ranks := sortDescNat (cards.map fun c => rankValue c.rank)
    let suits := cards.map fun c => c.suit
    let isFlush := suits.all fun s => s == suits.headD Suit.hearts
    let isStraight := checkStraight ranks
    let rankCounts := countRanks ranks
    if isStraight && isFlush && (ranks.headD 0 == 14) then
      ⟨HandRank.ROYAL_FLUSH, 10000⟩
    else if isStraight && isFlush then
      ⟨HandRank.STRAIGHT_FLUSH, 9000 + ranks.headD 0⟩
    else if rankCounts.fourOfKind != 0 then
      ⟨HandRank.FOUR_OF_KIND, 8000 + rankCounts.fourOfKind⟩
    else if rankCounts.threeOfKind != 0 && rankCounts.pair != 0 then
      ⟨HandRank.FULL_HOUSE, 7000 + rankCounts.threeOfKind⟩
    else if isFlush then
      ⟨HandRank.FLUSH, 6000 + ranks.headD 0⟩
    else if isStraight then
      ⟨HandRank.STRAIGHT, 5000 + ranks.headD 0⟩
    else if rankCounts.threeOfKind != 0 then
      ⟨HandRank.THREE_OF_KIND, 4000 + rankCounts.threeOfKind⟩
    else if 2 ≤ rankCounts.pairs then
      ⟨HandRank.TWO_PAIR, 3000 + maxListNat rankCounts.pairValues⟩
    else if rankCounts.pair != 0 then
      ⟨HandRank.PAIR, 2000 + rankCounts.pair⟩
    else
      ⟨HandRank.HIGH_CARD, 1000 + ranks.headD 0⟩

/-- src/lib/hand-evaluator.ts lines 142-163: recursion of `getCombinations`
(`combine`), which enumerates size-`n` sublists in the same order as the JS
index recursion: combinations containing the first element come first. -/
def combinationsAux : ℕ → List Card → List (List Card)
  | 0, _ => [[]]
  | _ + 1, [] => []
  | n + 1, a :: l => (combinationsAux n l).map (a :: ·) ++ combinationsAux (n + 1) l

/-- src/lib/hand-evaluator.ts lines 142-163: `getCombinations`, with the two
guard clauses of the source. -/
def getCombinations (arr : List Card) (size : ℕ) : List (List Card) :=
  if size > arr.length || size == 0 then []
  else if size == arr.length then [arr]
  else combinationsAux size arr

/-- src/lib/hand-evaluator.ts lines 123-140: `getBestHand`. -/
def getBestHand (holeCards communityCards : List Card) : HandEvaluation :=
  let allCards := holeCards ++ communityCards
  if allCards.length < 5 then evaluateHand allCards
  else
    (getCombinations allCards 5).foldl
      (fun bestHand combo =>
        let evaluation := evaluateHand combo
        if bestHand.value < evaluation.value then evaluation else bestHand)
      ⟨HandRank.HIGH_CARD, 0⟩

/-- src/types/poker.ts lines 36-69: `PlayerAnalytics`, restricted to the five
fields the engine's `analyzeOpponentTendencies` reads. -/
structure PlayerAnalytics where
  vpip : ℚ
  pfr : ℚ
  aggressionFactor : ℚ
  bluffFrequency : ℚ
  foldToAggression : ℚ
deriving DecidableEq

/-- src/unnamed/part_004 line 191: the `tightness` union. -/
inductive Tightness
  | tight
  | loose
  | balanced
deriving DecidableEq

/-- src/unnamed/part_004 line 192: the `style` union. -/
inductive Style
  | passive
  | aggressive
  | balanced
deriving DecidableEq

/-- src/unnamed/part_004 lines 185-193: `OpponentProfile`. -/
structure OpponentProfile where
  avgVPIP : ℚ
  avgPFR : ℚ
  avgAggressionFactor : ℚ
  avgBluffFrequency : ℚ
  avgFoldToAggression : ℚ
  tightness : Tightness
  style : Style
deriving DecidableEq

/-- src/unnamed/part_004 line 196: hero stack classification. -/
inductive StackStatus
  | short
  | medium
  | deep
deriving DecidableEq

/-- src/unnamed/part_004 line 197: opponent stack classification. -/
inductive OppStackStatus
  | short
  | medium
  | deep
  | mixed
deriving DecidableEq

/-- src/unnamed/part_004 line 204: the `stackPressure` union. -/
inductive StackPressure
  | facingDeep
  | facingShort
  | balanced
deriving DecidableEq

/-- src/unnamed/part_004 lines 195-205: `StackPsychology`. -/
structure StackPsychology where
  heroStackStatus : StackStatus
  opponentStackStatus : OppStackStatus
  heroBBs : ℚ
  avgOpponentBBs : ℚ
  desperation : ℚ
  intimidation : ℚ
  shortStackPresent : Bool
  deepStackPresent : Bool
  stackPressure : StackPressure
deriving DecidableEq

/-- An entry of `playerActions`: `{ action: ActionType; amount?: number }`. -/
structure ActionEntry where
  action : ActionType
  amount : Option ℚ
deriving DecidableEq

/-- src/unnamed/part_004 lines 5-21: `GameContext`.  Optional booleans are
`Bool` (JS `undefined` fails an `if` exactly like `false`); the
`opponentAnalytics` record is modelled by its list of values, which is all
`analyzeOpponentTendencies` consumes. -/
structure GameContext where
  holeCards : List Card
  communityCards : List Card
  currentRound : BettingRound
  pot : ℚ
  currentBet : ℚ
  playerStack : ℚ
  bigBlind : ℚ
  smallBlind : ℚ
  activePlayers : ℚ
  playerActions : List ActionEntry
  bluffIntent : Bool
  forceBluff : Bool
  opponentAnalytics : Option (List PlayerAnalytics)
  opponentStacks : Option (List ℚ)
  startingStack : Option ℚ
deriving DecidableEq

/-- The `{ type: ActionType; amount?: number }` result of
`determineOptimalAction`. -/
structure PlayerMove where
  type : ActionType
  amount : Option ℚ
deriving DecidableEq

/-- src/lib/poker-utils.ts lines 38-40: `calculatePotOdds`.  (Rational
division by zero yields 0 rather than JS Infinity; all engine call sites
guard `currentBet > 0`.) -/
def calculatePotOdds (callAmount potSize : ℚ) : ℚ :=
  (callAmount / (potSize + callAmount)) * 100

/-- src/unnamed/part_004 lines 152-183: `evaluatePreflopStrength`. -/
def evaluatePreflopStrength (holeCards : List Card) : ℚ :=
  match holeCards with
  | [card1, card2] =>
      let rank1 := rankIndex card1.rank
      let rank2 := rankIndex card2.rank
      if card1.rank = card2.rank then
        if 12 ≤ rank1 then 0.85
        else if 10 ≤ rank1 then 0.75
        else if 7 ≤ rank1 then 0.65
        else 0.55
      else
        let highCard := max rank1 rank2
        let gap := ((rank1 : ℤ) - (rank2 : ℤ)).natAbs
        let strength : ℚ := 0.30
        let strength := strength +
          (if 12 ≤ highCard then 0.15
           else if 10 ≤ highCard then 0.10
           else if 8 ≤ highCard then 0.05
           else 0)
        let strength := strength + (if card1.suit = card2.suit then 0.08 else 0)
        let strength := strength + (if gap ≤ 1 then 0.05 else if gap ≤ 3 then 0.02 else 0)
        min strength 0.90
  | _ => 0

/-- src/unnamed/part_004 lines 131-150: `calculateHandStrength`. -/
def calculateHandStrength (holeCards communityCards : List Card) : ℚ :=
  if holeCards.length < 2 then 0
  else if communityCards.length = 0 then evaluatePreflopStrength holeCards
  else
    let bestHand := getBestHand holeCards communityCards
    if HandRank.STRAIGHT_FLUSH ≤ bestHand.rank then 0.95
    else if HandRank.FOUR_OF_KIND ≤ bestHand.rank then 0.90
    else if HandRank.FULL_HOUSE ≤ bestHand.rank then 0.85
    else if HandRank.FLUSH ≤ bestHand.rank then 0.75
    else if HandRank.STRAIGHT ≤ bestHand.rank then 0.65
    else if HandRank.THREE_OF_KIND ≤ bestHand.rank then 0.55
    else if HandRank.TWO_PAIR ≤ bestHand.rank then 0.45
    else if HandRank.PAIR ≤ bestHand.rank then 0.35
    else 0.20

/-- src/unnamed/part_004 lines 207-242: `analyzeOpponentTendencies`. -/
def analyzeOpponentTendencies (analytics : Option (List PlayerAnalytics)) : OpponentProfile :=
  match analytics with
  | none => ⟨25, 15, 1.5, 30, 50, .balanced, .balanced⟩
  | some players =>
      if players.length = 0 then ⟨25, 15, 1.5, 30, 50, .balanced, .balanced⟩
      else
        let n : ℚ := players.length
        let avgVPIP := (players.map (·.vpip)).sum / n
        let avgPFR := (players.map (·.pfr)).sum / n
        let avgAggressionFactor := (players.map (·.aggressionFactor)).sum / n
        let avgBluffFrequency := (players.map (·.bluffFrequency)).sum / n
        let avgFoldToAggression := (players.map (·.foldToAggression)).sum / n
        let tightness :=
          if avgVPIP < 20 then Tightness.tight
          else if 30 < avgVPIP then Tightness.loose
          else Tightness.balanced
        let style :=
          if 2 < avgAggressionFactor ∨ 18 < avgPFR then Style.aggressive
          else if avgAggressionFactor < 1 then Style.passive
          else Style.balanced
        ⟨avgVPIP, avgPFR, avgAggressionFactor, avgBluffFrequency, avgFoldToAggression,
          tightness, style⟩

/-- JS `Math.max(...l)` for a list of rationals; the engine only reads it
under guards that guarantee the list has a positive element, where it agrees
with this 0-defaulted fold. -/
def jsMaxList (l : List ℚ) : ℚ := l.foldr max 0

/-- src/unnamed/part_004 lines 244-319: `analyzeStackPsychology`. -/
def analyzeStackPsychology (heroStack : ℚ) (opponentStacks : List ℚ) (bigBlind : ℚ)
    (startingStack : Option ℚ) : StackPsychology :=
  let heroBBs := heroStack / bigBlind
  let opponentBBs := opponentStacks.map (· / bigBlind)
  let avgOpponentBBs :=
    if opponentBBs.length = 0 then 0 else opponentBBs.sum / (opponentBBs.length : ℚ)
  let heroStackStatus :=
    if heroBBs < 20 then StackStatus.short
    else if heroBBs < 50 then StackStatus.medium
    else StackStatus.deep
  let shortStackPresent := opponentBBs.any fun bb => decide (bb < 20)
  let deepStackPresent := opponentBBs.any fun bb => decide (50 < bb)
  let opponentStackStatus :=
    if opponentBBs.length = 0 then OppStackStatus.medium
    else if shortStackPresent && deepStackPresent then OppStackStatus.mixed
    else if avgOpponentBBs < 20 then OppStackStatus.short
    else if 50 < avgOpponentBBs then OppStackStatus.deep
    else OppStackStatus.medium
  let desperation : ℚ :=
    if heroBBs < 20 then
      let d := 50 + (20 - heroBBs) * 2.5
      -- `if (startingStack && heroStack < startingStack * 0.5)`: the
      -- truthiness test fails when startingStack is absent or 0.
      match startingStack with
      | some ss => if ss ≠ 0 ∧ heroStack < ss * 0.5 then min 100 (d + 20) else d
      | none => d
    else if heroBBs < 30 then 20 + (30 - heroBBs) * 2
    else 0
  let intimidation : ℚ :=
    if deepStackPresent then
      let maxOpponentBBs := jsMaxList opponentBBs
      if heroBBs * 2 < maxOpponentBBs then 40 + min 40 ((maxOpponentBBs / heroBBs - 2) * 10)
      else if heroBBs < maxOpponentBBs then 20 + (maxOpponentBBs / heroBBs - 1) * 20
      else 0
    else 0
  let stackPressure :=
    if heroBBs * 1.5 < avgOpponentBBs then StackPressure.facingDeep
    else if avgOpponentBBs < heroBBs * 0.67 then StackPressure.facingShort
    else StackPressure.balanced
  ⟨heroStackStatus, opponentStackStatus, heroBBs, avgOpponentBBs, desperation,
    intimidation, shortStackPresent, deepStackPresent, stackPressure⟩

/-- src/unnamed/part_004 lines 321-382: the body of `estimateWinProbability`
up to and including the local `winProb`, before the final clamp. -/
def estimateWinProbabilityRaw (holeCards communityCards : List Card) (activePlayers : ℚ)
    (round : BettingRound) (opponentProfile : Option OpponentProfile)
    (stackPsych : Option StackPsychology) : ℚ :=
  let baseStrength := calculateHandStrength holeCards communityCards
  let opponentAdjustment := 1 - ((activePlayers - 1) * 0.08)
  let opponentAdjustment :=
    match opponentProfile with
    | none => opponentAdjustment
    | some p =>
        let oa :=
          if p.tightness = .tight then opponentAdjustment * 1.05
          else if p.tightness = .loose then opponentAdjustment * 0.95
          else opponentAdjustment
        if p.style = .aggressive ∧ baseStrength < 0.6 then oa * 0.93
        else if p.style = .passive then oa * 1.03
        else oa
  let roundMultiplier : ℚ :=
    match round with
    | .preflop => 0.85
    | .flop => 0.90
    | .turn => 0.95
    | .river => 1.0
  let stackAdjustment : ℚ :=
    match stackPsych with
    | none => 1.0
    | some sp =>
        let sa : ℚ := 1.0
        let sa := if sp.shortStackPresent ∧ 0.50 ≤ baseStrength then sa * 1.03 else sa
        let sa := if sp.deepStackPresent ∧ baseStrength < 0.60 then sa * 0.97 else sa
        if sp.heroStackStatus = .short ∧ baseStrength < 0.55 then sa * 0.95 else sa
  baseStrength * opponentAdjustment * stackAdjustment * roundMultiplier * 100

/-- src/unnamed/part_004 lines 321-385: `estimateWinProbability`
(`Math.max(5, Math.min(95, winProb))`). -/
def estimateWinProbability (holeCards communityCards : List Card) (activePlayers : ℚ)
    (round : BettingRound) (opponentProfile : Option OpponentProfile)
    (stackPsych : Option StackPsychology) : ℚ :=
  max 5 (min 95 (estimateWinProbabilityRaw holeCards communityCards activePlayers round
    opponentProfile stackPsych))

/-- src/unnamed/part_004 lines 387-391: `calculateExpectedValue`. -/
def calculateExpectedValue (winProbability pot callAmount : ℚ) : ℚ :=
  let winAmount := pot + callAmount
  let ev := (winProbability / 100) * winAmount - callAmount
  jsRound (ev * 100) / 100

/-- src/unnamed/part_004 line 393: the position union. -/
inductive TablePosition
  | early
  | middle
  | late
deriving DecidableEq

/-- src/unnamed/part_004 lines 393-398: `analyzePosition` (both branches
return 'middle'). -/
def analyzePosition (context : GameContext) : TablePosition :=
  if context.currentRound = .preflop then TablePosition.middle else TablePosition.middle

/-- src/unnamed/part_004 lines 400-405: `analyzeAggression`. -/
def analyzeAggression (actions : List ActionEntry) : ℚ :=
  if actions.length = 0 then 0.5
  else
    ((actions.filter fun a => a.action == ActionType.raise || a.action == ActionType.allIn).length : ℚ)
      / (actions.length : ℚ)

/-- src/unnamed/part_004 lines 423-553: the stack-psychology adjustment
section at the top of `determineOptimalAction`.  Returns the early all-in
return (the push/fold shove of lines 437-443) when it fires, together with the
final `stackSizingMultiplier` and `stackBasedCallThreshold`.  The source also
accumulates a `stackBasedBluffIncentive`, but its only consumer (line 556) is
commented out, so it is dead and omitted here. -/
def stackAdjustments (handStrength winProbability : ℚ) (context : GameContext)
    (stackPsych : Option StackPsychology) : Option PlayerMove × ℚ × ℚ :=
  match stackPsych with
  | none => (none, 1.0, context.bigBlind * 2)
  | some sp =>
      let callAmount := context.currentBet
      let m : ℚ :=
        if sp.heroStackStatus = .short then 1.3
        else if sp.heroStackStatus = .deep then 0.9
        else 1.0
      let early : Option PlayerMove :=
        if sp.heroStackStatus = .short ∧ 0.50 ≤ handStrength
            ∧ context.playerStack < context.bigBlind * 15
            ∧ ¬(callAmount = 0) ∧ context.playerStack * 0.5 ≤ callAmount then
          some ⟨.allIn, none⟩
        else none
      let thr : ℚ := context.bigBlind * 2
      let thr :=
        if sp.heroStackStatus = .short then thr * 0.75
        else if sp.heroStackStatus = .deep then thr * 1.2
        else thr
      let m :=
        if sp.shortStackPresent ∧ 0.65 ≤ handStrength ∧ 65 ≤ winProbability then m * 1.25
        else m
      let thr :=
        if sp.shortStackPresent ∧ ¬(callAmount = 0) ∧ context.pot * 0.8 ≤ callAmount
            ∧ handStrength < 0.60 then thr * 0.80
        else thr
      let facingDeepStacks := sp.deepStackPresent ∨ sp.stackPressure = .facingDeep
      let m :=
        if facingDeepStacks ∧ 0.70 ≤ handStrength ∧ context.currentRound ≠ .river then m * 0.85
        else m
      let thr :=
        if facingDeepStacks ∧ handStrength < 0.55 ∧ winProbability < 60 then thr * 0.85
        else thr
      let m :=
        if sp.stackPressure = .facingShort ∧ 0.45 ≤ handStrength ∧ handStrength < 0.65 then
          m * 1.15
        else m
      let thr :=
        if 50 < sp.desperation ∧ 0.40 ≤ handStrength ∧ ¬(callAmount = 0)
            ∧ callAmount ≤ context.playerStack then thr * 1.3
        else thr
      let thr := if 40 < sp.intimidation then thr * 0.90 else thr
      (early, m, thr)

/-- src/unnamed/part_004 lines 559-596: the preflop block of
`determineOptimalAction`.  `some` is a `return` of the source block; `none` is
its fall-through.  `minRaise` and `potRaise` are the locals computed once at
the top of `determineOptimalAction` (lines 419-420). -/
def preflopDecision (handStrength minRaise potRaise : ℚ) (context : GameContext) :
    Option PlayerMove :=
  let callAmount := context.currentBet
  if context.currentRound = .preflop then
    if 0.75 ≤ handStrength then
      let betAmount := min context.playerStack (max (3 * context.bigBlind) potRaise)
      if context.playerStack ≤ betAmount then some ⟨.allIn, none⟩
      else some ⟨.raise, some (max (3 * context.bigBlind) betAmount)⟩
    else if 0.60 ≤ handStrength then
      let raiseBase :=
        if callAmount = 0 then 3 * context.bigBlind else max minRaise (2.5 * context.bigBlind)
      let raiseAmount := min context.playerStack (jsFloor raiseBase)
      if context.playerStack ≤ raiseAmount then some ⟨.allIn, none⟩
      else some ⟨.raise, some (max context.bigBlind raiseAmount)⟩
    else if 0.45 ≤ handStrength ∧ callAmount = 0 then
      let raiseAmount := jsFloor (2.5 * context.bigBlind)
      some ⟨.raise, some (max context.bigBlind (min raiseAmount context.playerStack))⟩
    else if 0.45 ≤ handStrength ∧ callAmount ≤ context.bigBlind then
      some ⟨.call, some callAmount⟩
    else if callAmount = 0 then
      some ⟨.check, none⟩
    else if handStrength < 0.30 then
      some ⟨.fold, none⟩
    else none
  else none

/-- src/unnamed/part_004 lines 598-610: the preflop bluff block
(`bluffIntent && currentRound === 'preflop'`), which always returns when its
guard holds. -/
def bluffPreflopDecision (minRaise : ℚ) (context : GameContext) : Option PlayerMove :=
  let callAmount := context.currentBet
  if context.bluffIntent ∧ context.currentRound = .preflop then
    if callAmount = 0 then
      let opn := jsFloor (3 * context.bigBlind
        + (if 3 < context.activePlayers then context.bigBlind else 0))
      some ⟨.raise, some (min (max opn minRaise) context.playerStack)⟩
    else
      let threeBet := max minRaise (jsFloor (callAmount * 3))
      if context.playerStack ≤ threeBet then some ⟨.allIn, none⟩
      else some ⟨.raise, some (min threeBet context.playerStack)⟩
  else none

/-- src/unnamed/part_004 lines 612-650: the bluff block (`bluffIntent`), with
the forced-bluff sub-branch; `none` is the fall-through of the non-forced
case into the general cascade. -/
def bluffDecision (minRaise : ℚ) (context : GameContext)
    (opponentProfile : Option OpponentProfile) : Option PlayerMove :=
  let callAmount := context.currentBet
  let bluffMultiplier : ℚ :=
    match opponentProfile with
    | some p => if p.tightness = .tight then 1.2 else if p.tightness = .loose then 0.85 else 1.0
    | none => 1.0
  let sizingFactor : ℚ :=
    match opponentProfile with
    | some p => if 60 < p.avgFoldToAggression then 0.5 else 0.7
    | none => 0.7
  if context.bluffIntent ∧ context.forceBluff ∧ callAmount = 0 then
    let betAmount := max minRaise (jsFloor (context.pot * (0.5 * bluffMultiplier)))
    let actionType := if context.currentRound = .preflop then ActionType.raise else ActionType.bet
    some ⟨actionType, some (min betAmount context.playerStack)⟩
  else if context.bluffIntent ∧ context.forceBluff then
    let raiseAmount := max minRaise (jsFloor (max (context.pot * sizingFactor) (callAmount * 2.5)))
    if context.playerStack ≤ raiseAmount ∨ context.playerStack ≤ context.pot then
      some ⟨.allIn, none⟩
    else some ⟨.raise, some (min raiseAmount context.playerStack)⟩
  else if context.bluffIntent ∧ callAmount = 0 then
    let betAmount := max minRaise (jsFloor (context.pot * 0.6))
    let actionType := if context.currentRound = .preflop then ActionType.raise else ActionType.bet
    some ⟨actionType, some (min betAmount context.playerStack)⟩
  else if context.bluffIntent ∧ callAmount ≤ context.bigBlind * 4 then
    let raiseAmount := max minRaise (jsFloor (context.pot * 0.7))
    if context.playerStack ≤ raiseAmount then some ⟨.allIn, none⟩
    else some ⟨.raise, some (min raiseAmount context.playerStack)⟩
  else if context.bluffIntent ∧ context.playerStack ≤ context.pot then
    some ⟨.allIn, none⟩
  else none

/-- src/unnamed/part_004 lines 652-723: the general cascade at the tail of
`determineOptimalAction`, which always resolves to an action. -/
def generalDecision (handStrength winProbability potOdds minRaise potRaise : ℚ)
    (context : GameContext) (opponentProfile : Option OpponentProfile)
    (stackSizingMultiplier stackBasedCallThreshold : ℚ) : PlayerMove :=
  let callAmount := context.currentBet
  if winProbability < 15 ∨ handStrength < 0.25 then
    if callAmount = 0 then ⟨.check, none⟩ else ⟨.fold, none⟩
  else if 80 ≤ winProbability ∨ 0.80 ≤ handStrength then
    if callAmount = 0 then
      let betAmount := max minRaise potRaise
      let betAmount := jsFloor (betAmount * stackSizingMultiplier)
      if context.playerStack ≤ betAmount then ⟨.allIn, none⟩
      else
        let actionType :=
          if context.currentRound = .preflop then ActionType.raise else ActionType.bet
        ⟨actionType, some (min betAmount context.playerStack)⟩
    else
      let raiseAmount := max minRaise potRaise
      let raiseAmount := jsFloor (raiseAmount * stackSizingMultiplier)
      if context.playerStack ≤ raiseAmount then ⟨.allIn, none⟩
      else ⟨.raise, some (min raiseAmount context.playerStack)⟩
  else if 60 ≤ winProbability ∨ 0.65 ≤ handStrength then
    if callAmount = 0 then
      let betAmount := jsFloor (context.pot * 0.5)
      let betAmount := jsFloor (betAmount * stackSizingMultiplier)
      let actionType :=
        if context.currentRound = .preflop then ActionType.raise else ActionType.bet
      ⟨actionType, some (max context.bigBlind (min betAmount context.playerStack))⟩
    else if 0 < potOdds ∧ potOdds < winProbability then ⟨.call, some callAmount⟩
    else if callAmount ≤ max (context.bigBlind * 3) stackBasedCallThreshold then
      ⟨.call, some callAmount⟩
    else ⟨.fold, none⟩
  else if 40 ≤ winProbability ∨ 0.45 ≤ handStrength then
    if callAmount = 0 then ⟨.check, none⟩
    else
      let callThreshold : ℚ :=
        match opponentProfile with
        | some p =>
            if p.style = .passive then context.bigBlind * 2.5 else context.bigBlind * 2
        | none => context.bigBlind * 2
      let callThreshold := max callThreshold stackBasedCallThreshold
      if 0 < potOdds ∧ potOdds < winProbability ∧ callAmount ≤ callThreshold then
        ⟨.call, some callAmount⟩
      else ⟨.fold, none⟩
  else if callAmount = 0 then ⟨.check, none⟩
  else if callAmount ≤ context.bigBlind ∧ 25 ≤ winProbability then ⟨.call, some callAmount⟩
  else ⟨.fold, none⟩

/-- src/unnamed/part_004 lines 559-724: the rule cascade of
`determineOptimalAction` after the stack-psychology section: the preflop
block, the two bluff blocks and the general cascade, tried in source order
with `some` meaning an early `return`. -/
def determineOptimalActionMain (handStrength winProbability potOdds : ℚ)
    (context : GameContext) (opponentProfile : Option OpponentProfile)
    (stackSizingMultiplier stackBasedCallThreshold : ℚ) : PlayerMove :=
  let callAmount := context.currentBet
  let minRaise := max (context.bigBlind * 2) (callAmount * 2)
  let potRaise := jsFloor (context.pot * 0.75)
  match preflopDecision handStrength minRaise potRaise context with
  | some mv => mv
  | none =>
      match bluffPreflopDecision minRaise context with
      | some mv => mv
      | none =>
          match bluffDecision minRaise context opponentProfile with
          | some mv => mv
          | none =>
              generalDecision handStrength winProbability potOdds minRaise potRaise context
                opponentProfile stackSizingMultiplier stackBasedCallThreshold

/-- src/unnamed/part_004 lines 407-724: `determineOptimalAction`.  The unused
`_position` and `_aggression` parameters of the source are dropped.  The
stack-psychology section either returns early (all-in) or yields the sizing
multiplier and call threshold consumed by the cascade. -/
def determineOptimalAction (handStrength winProbability potOdds : ℚ)
    (context : GameContext) (opponentProfile : Option OpponentProfile)
    (stackPsych : Option StackPsychology) : PlayerMove :=
  let adj := stackAdjustments handStrength winProbability context stackPsych
  match adj.1 with
  | some earlyMove => earlyMove
  | none =>
      determineOptimalActionMain handStrength winProbability potOdds context
        opponentProfile adj.2.1 adj.2.2

/-- The `{ action, betSize? }` record built by `buildSecondary`'s `alt`
helper (src/unnamed/part_004 lines 830-834); the canned `reasoning` string is
presentational and omitted. -/
structure SecondaryLine where
  action : ActionType
  betSize : Option ℚ
deriving DecidableEq

/-- src/unnamed/part_004 lines 824-877: `buildSecondary`.  The guarded early
`return`s are flattened into one cascade with guards conjoined in source
order.  In the bluff/bet-or-raise arm, `primary.amount && primary.amount <
stack` is the JS truthiness test: it requires the amount to be present and
nonzero. -/
def buildSecondary (primary : PlayerMove) (context : GameContext) : Option SecondaryLine :=
  let noBetToCall := context.currentBet = 0
  if context.bluffIntent ∧ (primary.type = .bet ∨ primary.type = .raise) then
    let shove : Bool :=
      match primary.amount with
      | some amt => decide (¬amt = 0 ∧ amt < context.playerStack)
      | none => false
    if shove then some ⟨.allIn, none⟩
    else
      let r := max (context.bigBlind * 3) (jsFloor (context.pot * 0.5))
      let actionType :=
        if noBetToCall ∧ context.currentRound ≠ .preflop then ActionType.bet
        else ActionType.raise
      some ⟨actionType, some (min context.playerStack r)⟩
  else if context.bluffIntent ∧ (primary.type = .check ∨ primary.type = .call) then
    let r := max (context.bigBlind * 3) (jsFloor (context.pot * 0.6))
    let actionType :=
      if noBetToCall ∧ context.currentRound ≠ .preflop then ActionType.bet
      else ActionType.raise
    some ⟨actionType, some (min context.playerStack r)⟩
  else if context.bluffIntent ∧ primary.type = .fold then
    let r := max (context.bigBlind * 3) (jsFloor (context.pot * 0.6))
    let actionType :=
      if noBetToCall ∧ context.currentRound ≠ .preflop then ActionType.bet
      else ActionType.allIn
    some ⟨actionType, if noBetToCall then some (min context.playerStack r) else none⟩
  else if primary.type = .bet ∨ primary.type = .raise then
    some ⟨.call, none⟩
  else if primary.type = .call then
    let r := max (context.bigBlind * 2) (jsFloor (context.pot * 0.4))
    let actionType :=
      if noBetToCall ∧ context.currentRound ≠ .preflop then ActionType.bet
      else ActionType.raise
    some ⟨actionType, some (min context.playerStack r)⟩
  else if primary.type = .check then
    let r := max (context.bigBlind * 2) (jsFloor (context.pot * 0.33))
    let actionType :=
      if context.currentRound = .preflop then ActionType.raise else ActionType.bet
    some ⟨actionType, some (min context.playerStack r)⟩
  else if primary.type = .fold then
    if noBetToCall then some ⟨.check, none⟩ else some ⟨.call, none⟩
  else none

/-- src/unnamed/part_004 lines 879-881: `isAggressive`. -/
def isAggressive (action : ActionType) : Bool :=
  action == ActionType.bet || action == ActionType.raise || action == ActionType.allIn

/-- Insert into an ascending-sorted list (helper for `sortAscNat`). -/
def insertAscNat (a : ℕ) : List ℕ → List ℕ
  | [] => [a]
  | b :: l => if a < b then a :: b :: l else b :: insertAscNat a l

/-- `array.sort((a, b) => a - b)` on naturals: the ascending sort. -/
def sortAscNat (l : List ℕ) : List ℕ := l.foldr insertAscNat []

/-- src/unnamed/part_004 lines 896-899: counts the adjacent-rank pairs the
`straightThreat` loop rewards with `+0.05` each. -/
def countAdjacent : List ℕ → ℕ
  | a :: b :: rest => (if (b : ℤ) - (a : ℤ) == 1 then 1 else 0) + countAdjacent (b :: rest)
  | _ => 0

/-- src/unnamed/part_004 lines 883-902: `evaluateBoardThreat`.  The JS
`Math.max(...Object.values(suitCounts))` ranges over the suits present on the
board; taking the maximum over all four suit counts is equal to it whenever
the board is nonempty, which the early return guarantees here. -/
def evaluateBoardThreat (community : List Card) : ℚ :=
  if community.length = 0 then 0.3
  else
    let highCards : ℕ :=
      (community.filter fun c =>
        c.rank == Rank.ace || c.rank == Rank.king || c.rank == Rank.queen
          || c.rank == Rank.jack || c.rank == Rank.r10).length
    let suitCounts : List ℕ :=
      [Suit.hearts, Suit.diamonds, Suit.clubs, Suit.spades].map fun s =>
        (community.filter fun c => c.suit == s).length
    let flushThreat : ℚ := if 3 ≤ suitCounts.foldr max 0 then 0.15 else 0
    let ranksIdx := sortAscNat (community.map fun c => rankIndex c.rank)
    let straightThreat : ℚ := (countAdjacent ranksIdx : ℚ) * 0.05
    let highCardThreat : ℚ := min 0.2 ((highCards : ℚ) * 0.05)
    max 0.1 (min 0.8 (0.2 + flushThreat + straightThreat + highCardThreat))

/-- A per-street `{succ, total}` record of the learned
`bluff_success_rates`. -/
structure BluffRate where
  succ : ℚ
  total : ℚ
deriving DecidableEq

/-- The optional `__modelParams?.bluff_success_rates` blob
(src/unnamed/part_004 lines 904-914, 938): a per-street lookup of learned
bluff outcomes.  The module-level cache is write-once and read-only, so it is
passed as an explicit parameter here. -/
def BluffRates := BettingRound → Option BluffRate

/-- src/unnamed/part_004 lines 931-934: the fixed per-street baseline of
`estimateBluffSuccess`. -/
def streetBaseline : BettingRound → ℚ
  | .preflop => 0.35
  | .flop => 0.45
  | .turn => 0.5
  | .river => 0.55

/-- src/unnamed/part_004 lines 936-947: the base used by
`estimateBluffSuccess` — the street baseline, overridden by the learned
clamped rate when the cached record for the street exists and has
`total > 20`. -/
def bluffBase (round : BettingRound) (rates : Option BluffRates) : ℚ :=
  match rates with
  | none => streetBaseline round
  | some rs =>
      match rs round with
      | some r =>
          if 20 < r.total then max 0.2 (min 0.8 (r.succ / r.total))
          else streetBaseline round
      | none => streetBaseline round

/-- src/unnamed/part_004 lines 949-956: the tail of `estimateBluffSuccess`
after the base is fixed (multiway penalty, board/sizing bonus, aggression
penalty, clamp to [0.05, 0.9], percentage rounding). -/
def bluffFinalize (base activePlayers aggression boardThreat sizingAggression : ℚ) : ℚ :=
  let opp := max 1 (activePlayers - 1)
  let fe := base - (opp - 1) * 0.08
  let fe := fe + min 0.25 (boardThreat * 0.3 + sizingAggression * 0.25)
  let fe := fe - min 0.2 (aggression * 0.2)
  jsRound (max 0.05 (min 0.9 fe) * 100)

/-- src/unnamed/part_004 lines 916-957: `estimateBluffSuccess`, as the
composition of `bluffBase` and `bluffFinalize`. -/
def estimateBluffSuccess (round : BettingRound)
    (activePlayers aggression boardThreat sizingAggression : ℚ)
    (modelParams : Option BluffRates) : ℚ :=
  bluffFinalize (bluffBase round modelParams) activePlayers aggression boardThreat
    sizingAggression

/-- The result record of `detectStrongBluffOpportunity` (src/unnamed/part_004
line 973), minus the presentational `reason` string. -/
structure SmartBluff where
  flag : Bool
  suggestedAction : ActionType
  successOdds : ℚ
deriving DecidableEq

/-- src/unnamed/part_004 lines 959-1017: `detectStrongBluffOpportunity`. -/
def detectStrongBluffOpportunity (context : GameContext)
    (handStrength winProbability boardThreat aggression bluffSuccessOdds : ℚ) :
    Option SmartBluff :=
  if context.forceBluff then none
  else
    let noShowdownValue := handStrength < 0.30 ∧ winProbability < 45
    let scaryBoard := 0.5 ≤ boardThreat
    let lowAggression := aggression ≤ 0.35
    if context.currentRound = .river ∧ noShowdownValue ∧ scaryBoard ∧ lowAggression then
      some ⟨true, .raise, bluffSuccessOdds⟩
    else if (context.currentRound = .flop ∨ context.currentRound = .turn)
        ∧ 0.30 ≤ handStrength ∧ handStrength ≤ 0.55 ∧ scaryBoard then
      some ⟨true, .raise, max bluffSuccessOdds 40⟩
    else if context.currentRound = .preflop ∧ handStrength < 0.25 ∧ lowAggression
        ∧ context.activePlayers ≤ 3 then
      if context.currentBet = 0 then
        some ⟨true, .raise,
          max 35 (min 65 (jsRound ((1 - (context.activePlayers - 1) * 0.15) * 100)))⟩
      else if context.activePlayers ≤ 2 ∧ context.currentBet ≤ context.bigBlind * 3 then
        some ⟨true, .raise, max 30 (min 55 (jsRound (bluffSuccessOdds * 0.8)))⟩
      else none
    else none

/-- The `{ primaryFreq, secondaryFreq }` result of `allocateFrequencies`. -/
structure FreqSplit where
  primaryFreq : ℚ
  secondaryFreq : ℚ
deriving DecidableEq

/-- src/unnamed/part_004 lines 1205-1234: `allocateFrequencies`.  The JS
`isFinite(potOdds)` test is always true in the rational model, so `potOdds`
is used directly. -/
def allocateFrequencies (primary : ActionType) (secondary : Option ActionType)
    (winProbability potOdds : ℚ) (bluffIntent : Bool) : FreqSplit :=
  match secondary with
  | none => ⟨100, 0⟩
  | some sec =>
      let margin := max 0 (winProbability - potOdds)
      let primaryFreq := 60 + min 30 (jsFloor (margin / 5))
      let primaryFreq :=
        if bluffIntent then
          if isAggressive primary then min 95 (primaryFreq + 10)
          else if isAggressive sec then max 55 (primaryFreq - 15)
          else primaryFreq
        else primaryFreq
      let primaryFreq := max 50 (min 95 primaryFreq)
      ⟨primaryFreq, 100 - primaryFreq⟩

/-- src/types/poker.ts lines 103-108: `SecondaryRecommendation`, minus the
presentational `reasoning` string. -/
structure SecondaryRecommendation where
  action : ActionType
  betSize : Option ℚ
  frequency : Option ℚ
deriving DecidableEq

/-- src/types/poker.ts lines 110-126: `AIRecommendation`, minus the
presentational `reasoning` and `smartBluffReason` strings. -/
structure AIRecommendation where
  action : ActionType
  betSize : Option ℚ
  winProbability : ℚ
  potOdds : Option ℚ
  expectedValue : Option ℚ
  secondary : Option SecondaryRecommendation
  bluffAware : Bool
  primaryFrequency : Option ℚ
  bluffSuccessOdds : Option ℚ
  goodForValue : Bool
  smartBluff : Bool
  smartBluffAction : Option ActionType
  smartBluffSuccessOdds : Option ℚ
deriving DecidableEq

/-- src/unnamed/part_004 lines 23-129: `generateAIRecommendation`.  The
write-once module cache behind `estimateBluffSuccess` is passed explicitly as
`modelParams`; `generateReasoning` only produces the omitted free-text
`reasoning` field and is not modelled. -/
def generateAIRecommendation (context : GameContext) (modelParams : Option BluffRates) :
    AIRecommendation :=
  let handStrength := calculateHandStrength context.holeCards context.communityCards
  let stackPsych := analyzeStackPsychology context.playerStack
    (context.opponentStacks.getD []) context.bigBlind context.startingStack
  let opponentProfile := analyzeOpponentTendencies context.opponentAnalytics
  let winProbability := estimateWinProbability context.holeCards context.communityCards
    context.activePlayers context.currentRound (some opponentProfile) (some stackPsych)
  let potOdds := if 0 < context.currentBet then calculatePotOdds context.currentBet context.pot
    else 0
  let expectedValue := calculateExpectedValue winProbability context.pot context.currentBet
  let action := determineOptimalAction handStrength winProbability potOdds context
    (some opponentProfile) (some stackPsych)
  let secondary := buildSecondary action context
  let boardThreat := evaluateBoardThreat context.communityCards
  let sizingAggression : ℚ :=
    if action.type = .allIn then 1.0 else if action.type = .raise then 0.7 else 0.2
  let bluffSuccessOdds := estimateBluffSuccess context.currentRound context.activePlayers
    (analyzeAggression context.playerActions) boardThreat sizingAggression modelParams
  let strongByStrength := decide (0.75 ≤ handStrength)
  let strongByWinProb := decide (60 ≤ winProbability)
  let notWeakBluff :=
    !(context.bluffIntent && decide (handStrength < 0.5) && decide (winProbability < 55))
  let goodForValue :=
    !context.forceBluff && (strongByStrength || strongByWinProb)
      && decide (context.currentRound ≠ .preflop) && notWeakBluff
  let freqs := allocateFrequencies action.type (secondary.map (·.action)) winProbability
    potOdds context.bluffIntent
  let smart := detectStrongBluffOpportunity context handStrength winProbability boardThreat
    (analyzeAggression context.playerActions) bluffSuccessOdds
  { action := action.type
    betSize := action.amount
    winProbability := winProbability
    potOdds := if 0 < potOdds then some potOdds else none
    expectedValue := some expectedValue
    secondary := secondary.map fun s => ⟨s.action, s.betSize, some freqs.secondaryFreq⟩
    bluffAware := context.bluffIntent
    primaryFrequency := some freqs.primaryFreq
    bluffSuccessOdds := some bluffSuccessOdds
    goodForValue := goodForValue
    smartBluff := (smart.map (·.flag)).getD false
    smartBluffAction := smart.map (·.suggestedAction)
    smartBluffSuccessOdds := smart.map (·.successOdds) }
theorem rankValue_le_fourteen (r : Rank) : rankValue r ≤ 14 := by
  cases r <;> decide

theorem mem_insertDescNat {x a : ℕ} {l : List ℕ} (hx : x ∈ insertDescNat a l) :
    x = a ∨ x ∈ l := by
  induction l with
  | nil =>
      simp [insertDescNat] at hx
      exact Or.inl hx
  | cons b t ih =>
      unfold insertDescNat at hx
      split_ifs at hx with hc
      · simpa using hx
      · rcases List.mem_cons.mp hx with h | h
        · exact Or.inr (by simp [h])
        · rcases ih h with h | h
          · exact Or.inl h
          · exact Or.inr (by simp [h])

theorem mem_sortDescNat {x : ℕ} {l : List ℕ} (hx : x ∈ sortDescNat l) : x ∈ l := by
  induction l with
  | nil => simp [sortDescNat] at hx
  | cons a t ih =>
      unfold sortDescNat at hx
      rcases mem_insertDescNat hx with h | h
      · simp [h]
      · exact List.mem_cons_of_mem _ (ih h)

theorem mem_firstOccurrencesAux {x : ℕ} : ∀ {l seen : List ℕ},
    x ∈ firstOccurrencesAux l seen → x ∈ l := by
  intro l
  induction l with
  | nil => intro seen hx; simp [firstOccurrencesAux] at hx
  | cons a t ih =>
      intro seen hx
      unfold firstOccurrencesAux at hx
      split_ifs at hx with hc
      · exact List.mem_cons_of_mem _ (ih hx)
      · rcases List.mem_cons.mp hx with h | h
        · simp [h]
        · exact List.mem_cons_of_mem _ (ih h)

theorem mem_firstOccurrences {x : ℕ} {l : List ℕ} (hx : x ∈ firstOccurrences l) : x ∈ l :=
  mem_firstOccurrencesAux hx

theorem headD_le_fourteen {l : List ℕ} (h : ∀ x ∈ l, x ≤ 14) : l.headD 0 ≤ 14 := by
  cases l with
  | nil => simp
  | cons a t => exact h a (by simp)

theorem maxListNat_le_fourteen {l : List ℕ} (h : ∀ x ∈ l, x ≤ 14) : maxListNat l ≤ 14 := by
  induction l with
  | nil => simp [maxListNat]
  | cons a t ih =>
      have ha := h a (by simp)
      have ht := ih fun x hx => h x (List.mem_cons_of_mem _ hx)
      simp only [maxListNat, List.foldr] at ht ⊢
      omega

theorem countRanksStep_le_fourteen {ranks : List ℕ} {st : CountRanks} {r : ℕ} (hr : r ≤ 14)
    (h : st.pair ≤ 14 ∧ st.threeOfKind ≤ 14 ∧ st.fourOfKind ≤ 14 ∧
      ∀ x ∈ st.pairValues, x ≤ 14) :
    (countRanksStep ranks st r).pair ≤ 14 ∧ (countRanksStep ranks st r).threeOfKind ≤ 14 ∧
      (countRanksStep ranks st r).fourOfKind ≤ 14 ∧
      ∀ x ∈ (countRanksStep ranks st r).pairValues, x ≤ 14 := by
  obtain ⟨h1, h2, h3, h4⟩ := h
  unfold countRanksStep
  simp only []
  split_ifs <;>
    refine ⟨by simp_all, by simp_all, by simp_all, ?_⟩ <;>
    intro x hx <;>
    simp_all <;>
    (rcases hx with hx | hx
     · exact h4 x hx
     · omega)

theorem countRanksFold_le_fourteen (ranks : List ℕ) : ∀ (m : List ℕ) (st : CountRanks),
    (∀ x ∈ m, x ≤ 14) →
    (st.pair ≤ 14 ∧ st.threeOfKind ≤ 14 ∧ st.fourOfKind ≤ 14 ∧
      ∀ x ∈ st.pairValues, x ≤ 14) →
    ((m.foldl (countRanksStep ranks) st).pair ≤ 14 ∧
      (m.foldl (countRanksStep ranks) st).threeOfKind ≤ 14 ∧
      (m.foldl (countRanksStep ranks) st).fourOfKind ≤ 14 ∧
      ∀ x ∈ (m.foldl (countRanksStep ranks) st).pairValues, x ≤ 14) := by
  intro m
  induction m with
  | nil => intro st _ hst; simpa using hst
  | cons a t ih =>
      intro st hm hst
      simp only [List.foldl_cons]
      exact ih _ (fun x hx => hm x (List.mem_cons_of_mem _ hx))
        (countRanksStep_le_fourteen (hm a (by simp)) hst)

theorem countRanks_le_fourteen {ranks : List ℕ} (h : ∀ x ∈ ranks, x ≤ 14) :
    (countRanks ranks).pair ≤ 14 ∧ (countRanks ranks).threeOfKind ≤ 14 ∧
      (countRanks ranks).fourOfKind ≤ 14 ∧ ∀ x ∈ (countRanks ranks).pairValues, x ≤ 14 := by
  unfold countRanks
  exact countRanksFold_le_fourteen ranks _ _
    (fun x hx => h x (mem_firstOccurrences hx)) (by simp)

theorem sortedRanks_le_fourteen (cards : List Card) :
    ∀ x ∈ sortDescNat (cards.map fun c => rankValue c.rank), x ≤ 14 := by
  intro x hx
  rcases List.mem_map.mp (mem_sortDescNat hx) with ⟨c, _, hc⟩
  exact hc ▸ rankValue_le_fourteen c.rank

theorem evaluateHand_bounds (cards : List Card) (h : ¬cards.length < 5) :
    1 ≤ (evaluateHand cards).rank ∧ (evaluateHand cards).rank ≤ 10 ∧
      1000 * (evaluateHand cards).rank ≤ (evaluateHand cards).value ∧
      (evaluateHand cards).value ≤ 1000 * (evaluateHand cards).rank + 14 := by
  have hhead := headD_le_fourteen (sortedRanks_le_fourteen cards)
  have hcr := countRanks_le_fourteen (sortedRanks_le_fourteen cards)
  have hmax := maxListNat_le_fourteen hcr.2.2.2
  obtain ⟨hp, h3, h4, _⟩ := hcr
  unfold evaluateHand
  rw [if_neg h]
  simp only []
  split_ifs <;>
    simp only [HandRank.HIGH_CARD, HandRank.PAIR, HandRank.TWO_PAIR, HandRank.THREE_OF_KIND,
      HandRank.STRAIGHT, HandRank.FLUSH, HandRank.FULL_HOUSE, HandRank.FOUR_OF_KIND,
      HandRank.STRAIGHT_FLUSH, HandRank.ROYAL_FLUSH] <;>
    omega

/-- Claim C4: the spec says `evaluateHand` returns the royal-flush category
exactly for ace-high straight flushes and classifies the suited wheel
A,5,4,3,2 as a straight flush.  The code instead tests `ranks[0] === 14`,
which the wheel satisfies because the ace sorts first, so the suited wheel
evaluates to ROYAL_FLUSH (value 10000), not STRAIGHT_FLUSH: the code
contradicts the documented category definition at this input. -/
theorem royalFlush_wheel_eval :
    evaluateHand
        [⟨Suit.spades, Rank.ace⟩, ⟨Suit.spades, Rank.r5⟩, ⟨Suit.spades, Rank.r4⟩,
          ⟨Suit.spades, Rank.r3⟩, ⟨Suit.spades, Rank.r2⟩]
      = ⟨HandRank.ROYAL_FLUSH, 10000⟩ ∧ HandRank.ROYAL_FLUSH ≠ HandRank.STRAIGHT_FLUSH := by
  constructor
  · decide
  · decide

/-- Claim C9: for every card list with fewer than 5 cards, `evaluateHand`
returns the degenerate "incomplete" evaluation (high-card category, tiebreak
value 0), and `getBestHand` falls back to that same degenerate evaluation
whenever hole plus community cards total fewer than 5; both are total
functions, so no exception is possible. -/
theorem incomplete_eval (cards hole comm : List Card) (hc : cards.length < 5)
    (hhc : (hole ++ comm).length < 5) :
    evaluateHand cards = ⟨HandRank.HIGH_CARD, 0⟩ ∧
      getBestHand hole comm = ⟨HandRank.HIGH_CARD, 0⟩ := by
  have base : ∀ l : List Card, l.length < 5 → evaluateHand l = ⟨HandRank.HIGH_CARD, 0⟩ := by
    intro l hl
    unfold evaluateHand
    rw [if_pos hl]
  refine ⟨base cards hc, ?_⟩
  unfold getBestHand
  simp only []
  rw [if_pos hhc]
  exact base _ hhc

theorem incomplete_eval_witness :
    evaluateHand [⟨Suit.spades, Rank.ace⟩] = ⟨HandRank.HIGH_CARD, 0⟩ ∧
      getBestHand [⟨Suit.spades, Rank.ace⟩, ⟨Suit.hearts, Rank.king⟩]
        [⟨Suit.clubs, Rank.r7⟩] = ⟨HandRank.HIGH_CARD, 0⟩ :=
  incomplete_eval _ _ _ (by decide) (by decide)

/-- Claim C5: for any two 5-card hands, if `evaluateHand` assigns the first a
strictly higher category than the second, its tiebreak value is strictly
greater as well — category rank strictly dominates the within-category
tiebreak, because every within-category bonus is a rank value of at most 14
while categories are spaced 1000 apart. -/
theorem category_dominates_tiebreak (h1 h2 : List Card) (l1 : h1.length = 5)
    (l2 : h2.length = 5) (hr : (evaluateHand h2).rank < (evaluateHand h1).rank) :
    (evaluateHand h2).value < (evaluateHand h1).value := by
  have b1 := evaluateHand_bounds h1 (by omega)
  have b2 := evaluateHand_bounds h2 (by omega)
  omega

theorem category_dominates_tiebreak_witness :
    (evaluateHand [⟨Suit.spades, Rank.ace⟩, ⟨Suit.hearts, Rank.ace⟩, ⟨Suit.diamonds, Rank.king⟩,
        ⟨Suit.spades, Rank.king⟩, ⟨Suit.spades, Rank.r3⟩]).value
      < (evaluateHand [⟨Suit.spades, Rank.r2⟩, ⟨Suit.hearts, Rank.r2⟩, ⟨Suit.diamonds, Rank.r2⟩,
        ⟨Suit.spades, Rank.king⟩, ⟨Suit.spades, Rank.queen⟩]).value :=
  category_dominates_tiebreak _ _ (by decide) (by decide) (by decide)

/-- Claim C6: for all inputs — any hole cards, community cards, active-player
count, street, and any optional opponent profile or stack psychology —
`estimateWinProbability` returns a value in the closed interval [5, 95]. -/
theorem winProbability_in_bounds (hole comm : List Card) (n : ℚ) (round : BettingRound)
    (prof : Option OpponentProfile) (sp : Option StackPsychology) :
    5 ≤ estimateWinProbability hole comm n round prof sp ∧
      estimateWinProbability hole comm n round prof sp ≤ 95 := by
  unfold estimateWinProbability
  exact ⟨le_max_left _ _, max_le (by norm_num) (min_le_left _ _)⟩

/-- Claim C7 (amended): with a neutral (absent) opponent profile and absent
stack psychology, each additional active opponent beyond the first subtracts
0.08 from the opponent adjustment factor — the pre-clamp result equals hand
strength × (1 − 0.08·(n−1)) × street multiplier (preflop 0.85, flop 0.90,
turn 0.95, river 1.00) × 100 for every n ≥ 1.  (The adjustment is linear in
n, not the geometric ×0.92-per-opponent discount the original claim
states; the two agree only for n ≤ 2.) -/
theorem winProbability_linear_discount (hole comm : List Card) (n : ℚ)
    (round : BettingRound) (_hn : 1 ≤ n) :
    estimateWinProbabilityRaw hole comm n round none none =
      calculateHandStrength hole comm * (1 - (n - 1) * 0.08) *
        (match round with
         | .preflop => (0.85 : ℚ)
         | .flop => 0.90
         | .turn => 0.95
         | .river => 1.0) * 100 := by
  unfold estimateWinProbabilityRaw
  simp only []
  ring

/-- Witness for the amended claim C7 at pocket aces, three active players,
preflop. -/
theorem winProbability_linear_discount_witness :
    (1 : ℚ) ≤ 3 ∧
      estimateWinProbabilityRaw [⟨Suit.spades, Rank.ace⟩, ⟨Suit.hearts, Rank.ace⟩] [] 3
          .preflop none none =
        calculateHandStrength [⟨Suit.spades, Rank.ace⟩, ⟨Suit.hearts, Rank.ace⟩] [] *
          (1 - ((3 : ℚ) - 1) * 0.08) * 0.85 * 100 :=
  ⟨by norm_num, winProbability_linear_discount _ _ 3 .preflop (by norm_num)⟩

/-- Counterexample to claim C7 as stated: at pocket aces, three active
players, preflop, with no profile and no stack psychology, the pre-clamp win
probability is 0.85 × (1 − 2·0.08) × 0.85 × 100 = 60.69, which differs from
the claimed geometric form 0.85 × 0.92² × 0.85 × 100 = 61.1524. -/
theorem winProbability_not_geometric :
    estimateWinProbabilityRaw [⟨Suit.spades, Rank.ace⟩, ⟨Suit.hearts, Rank.ace⟩] [] 3
        .preflop none none ≠
      calculateHandStrength [⟨Suit.spades, Rank.ace⟩, ⟨Suit.hearts, Rank.ace⟩] [] *
        0.92 ^ (2 : ℕ) * 0.85 * 100 := by
  have hstr : calculateHandStrength [⟨Suit.spades, Rank.ace⟩, ⟨Suit.hearts, Rank.ace⟩] []
      = 0.85 := rfl
  unfold estimateWinProbabilityRaw
  simp only []
  rw [hstr]
  norm_num

/-- Claim C8 (amended): if the cached model parameters contain a
bluff-success record for the current street with strictly more than 20
historical samples (`total > 20`), the fixed street baseline (preflop 0.35,
flop 0.45, turn 0.50, river 0.55) is overridden by the learned rate
succ/total clamped to [0.2, 0.8]; with `total ≤ 20` the fixed street
baseline is used.  (The source tests `r.total > 20`, so a record with
exactly 20 samples does not trigger the override, contrary to the original
claim's "at least 20".) -/
theorem bluffSuccess_learned_override (round : BettingRound) (n agg bt sa : ℚ)
    (rs : BluffRates) (r : BluffRate) (hlookup : rs round = some r) :
    (20 < r.total →
      estimateBluffSuccess round n agg bt sa (some rs)
        = bluffFinalize (max 0.2 (min 0.8 (r.succ / r.total))) n agg bt sa) ∧
    (r.total ≤ 20 →
      estimateBluffSuccess round n agg bt sa (some rs)
        = bluffFinalize (streetBaseline round) n agg bt sa) := by
  unfold estimateBluffSuccess bluffBase
  simp only []
  rw [hlookup]
  simp only []
  constructor
  · intro h
    rw [if_pos h]
  · intro h
    rw [if_neg (not_lt.mpr h)]

/-- Witness for the amended claim C8 with a flop record of 15 successes in 21
samples. -/
theorem bluffSuccess_learned_override_witness :
    ((fun _ => some ⟨15, 21⟩ : BluffRates) .flop = some ⟨15, 21⟩) ∧ (20 : ℚ) < 21 ∧
      estimateBluffSuccess .flop 2 0 0 0 (some fun _ => some ⟨15, 21⟩)
        = bluffFinalize (max 0.2 (min 0.8 ((15 : ℚ) / 21))) 2 0 0 0 :=
  ⟨rfl, by norm_num,
    (bluffSuccess_learned_override .flop 2 0 0 0 _ ⟨15, 21⟩ rfl).1 (by norm_num)⟩

/-- Counterexample to claim C8 as stated: a flop record with exactly 20
samples (total = 20, succ = 20) does not override the baseline — the
function returns the baseline-derived 45, while the learned override the
claim requires would give 80. -/
theorem bluffSuccess_boundary_not_overridden :
    estimateBluffSuccess .flop 2 0 0 0 (some fun _ => some ⟨20, 20⟩) = 45 ∧
      bluffFinalize (max 0.2 (min 0.8 ((20 : ℚ) / 20))) 2 0 0 0 = 80 ∧ (45 : ℚ) ≠ 80 := by
  refine ⟨?_, ?_, by norm_num⟩
  · unfold estimateBluffSuccess bluffBase streetBaseline bluffFinalize jsRound
    norm_num [max_def, min_def]
  · unfold bluffFinalize jsRound
    norm_num [max_def, min_def]

theorem stackAdjustments_noEarly (handStrength winProbability : ℚ) (context : GameContext)
    (sp : Option StackPsychology) (h : context.currentBet = 0) :
    (stackAdjustments handStrength winProbability context sp).1 = none := by
  unfold stackAdjustments
  cases sp with
  | none => rfl
  | some sp => simp [h]

set_option maxHeartbeats 4000000 in
theorem preflopDecision_noFold (hs mr pr : ℚ) (ctx : GameContext) (mv : PlayerMove)
    (hmv : preflopDecision hs mr pr ctx = some mv) (h : ctx.currentBet = 0) :
    mv.type ≠ ActionType.fold := by
  unfold preflopDecision at hmv
  simp only [] at hmv
  split_ifs at hmv <;> simp_all <;> simp [Eq.symm hmv]

theorem bluffPreflopDecision_noFold (mr : ℚ) (ctx : GameContext) (mv : PlayerMove)
    (hmv : bluffPreflopDecision mr ctx = some mv) : mv.type ≠ ActionType.fold := by
  unfold bluffPreflopDecision at hmv
  simp only [] at hmv
  split_ifs at hmv <;> simp_all <;> simp [Eq.symm hmv]

theorem bluffDecision_noFold (mr : ℚ) (ctx : GameContext) (prof : Option OpponentProfile)
    (mv : PlayerMove) (hmv : bluffDecision mr ctx prof = some mv) :
    mv.type ≠ ActionType.fold := by
  unfold bluffDecision at hmv
  simp only [] at hmv
  split_ifs at hmv <;> simp_all <;> simp [Eq.symm hmv]

theorem generalDecision_noFold (hs wp po mr pr : ℚ) (ctx : GameContext)
    (prof : Option OpponentProfile) (mult thr : ℚ) (h : ctx.currentBet = 0) :
    (generalDecision hs wp po mr pr ctx prof mult thr).type ≠ ActionType.fold := by
  unfold generalDecision
  simp only [h]
  split_ifs <;> simp_all

theorem never_fold_main (handStrength winProbability potOdds : ℚ) (context : GameContext)
    (prof : Option OpponentProfile) (mult thr : ℚ) (h : context.currentBet = 0) :
    (determineOptimalActionMain handStrength winProbability potOdds context prof mult thr).type
      ≠ ActionType.fold := by
  unfold determineOptimalActionMain
  simp only []
  cases hp : preflopDecision handStrength
      (max (context.bigBlind * 2) (context.currentBet * 2)) (jsFloor (context.pot * 0.75))
      context with
  | some mv => exact preflopDecision_noFold _ _ _ _ mv hp h
  | none =>
      cases hbp : bluffPreflopDecision
          (max (context.bigBlind * 2) (context.currentBet * 2)) context with
      | some mv => exact bluffPreflopDecision_noFold _ _ mv hbp
      | none =>
          cases hb : bluffDecision (max (context.bigBlind * 2) (context.currentBet * 2))
              context prof with
          | some mv => exact bluffDecision_noFold _ _ _ mv hb
          | none => exact generalDecision_noFold _ _ _ _ _ _ _ _ _ h

/-- Claim C1: whenever the amount to call is 0, `determineOptimalAction`
never returns fold — for any hand strength, win probability, pot odds,
street, bluff flags, opponent profile, or stack psychology. -/
theorem never_fold_for_free (handStrength winProbability potOdds : ℚ)
    (context : GameContext) (prof : Option OpponentProfile) (sp : Option StackPsychology)
    (h : context.currentBet = 0) :
    (determineOptimalAction handStrength winProbability potOdds context prof sp).type
      ≠ ActionType.fold := by
  unfold determineOptimalAction
  simp only []
  rw [stackAdjustments_noEarly handStrength winProbability context sp h]
  exact never_fold_main handStrength winProbability potOdds context prof _ _ h

/-- Witness for claim C1 at a concrete flop context with no outstanding
bet. -/
theorem never_fold_for_free_witness :
    (⟨[], [], .flop, 100, 0, 500, 10, 5, 2, [], false, false, none, none, none⟩ :
        GameContext).currentBet = 0 ∧
      (determineOptimalAction 0.5 50 0
          ⟨[], [], .flop, 100, 0, 500, 10, 5, 2, [], false, false, none, none, none⟩
          none none).type ≠ ActionType.fold :=
  ⟨rfl, never_fold_for_free 0.5 50 0 _ none none rfl⟩

/-- Claim C2 (violated by the code): with hand strength 0.3, win probability
60, on the flop with pot 0, no bet to call, player stack 50 and big blind
100, `determineOptimalAction` reaches the medium-strength branch and returns
a bet of `Math.max(bigBlind, Math.min(betAmount, playerStack))` = 100, which
exceeds the 50-chip stack — the `Math.max(bigBlind, ...)` is applied after
the stack clamp, producing an over-stack bet instead of all-in. -/
theorem stackCap_violated :
    determineOptimalAction 0.3 60 0
        ⟨[], [], .flop, 0, 0, 50, 100, 50, 2, [], false, false, none, none, none⟩ none none
      = ⟨ActionType.bet, some 100⟩ ∧
      (⟨[], [], .flop, 0, 0, 50, 100, 50, 2, [], false, false, none, none, none⟩ :
        GameContext).playerStack < 100 := by
  refine ⟨?_, by norm_num⟩
  unfold determineOptimalAction stackAdjustments determineOptimalActionMain preflopDecision
    bluffPreflopDecision bluffDecision generalDecision
  norm_num [jsFloor, max_def, min_def]
  simp

/-- Claim C3 (violated by the code): `forceBluff` is consulted only inside
the `if (bluffIntent)` block, so with `forceBluff` set but `bluffIntent`
unset, a weak hand facing a bet falls through to the general cascade and
folds — contrary to the source's own comment "when true, never output
'fold'". -/
theorem forceBluff_still_folds :
    determineOptimalAction 0.1 10 0
        ⟨[], [], .flop, 100, 50, 500, 10, 5, 2, [], false, true, none, none, none⟩ none none
      = ⟨ActionType.fold, none⟩ ∧
      (⟨[], [], .flop, 100, 50, 500, 10, 5, 2, [], false, true, none, none, none⟩ :
        GameContext).forceBluff = true := by
  refine ⟨?_, rfl⟩
  unfold determineOptimalAction stackAdjustments determineOptimalActionMain preflopDecision
    bluffPreflopDecision bluffDecision generalDecision
  norm_num [jsFloor, max_def, min_def]
  simp

theorem allocateFrequencies_bounds (primary sec : ActionType) (wp po : ℚ) (bi : Bool) :
    50 ≤ (allocateFrequencies primary (some sec) wp po bi).primaryFreq ∧
      (allocateFrequencies primary (some sec) wp po bi).primaryFreq ≤ 95 ∧
      (allocateFrequencies primary (some sec) wp po bi).secondaryFreq
        = 100 - (allocateFrequencies primary (some sec) wp po bi).primaryFreq := by
  unfold allocateFrequencies
  simp only []
  exact ⟨le_max_left _ _, max_le (by norm_num) (min_le_left _ _), by trivial⟩

theorem recommendation_freq_key (mv : PlayerMove) (bi : Bool) (wp po : ℚ)
    (sec : Option SecondaryLine) :
    ((sec.map fun s => (⟨s.action, s.betSize,
          some (allocateFrequencies mv.type (sec.map (·.action)) wp po bi).secondaryFreq⟩ :
          SecondaryRecommendation)) = none →
        (some (allocateFrequencies mv.type (sec.map (·.action)) wp po bi).primaryFreq :
          Option ℚ) = some 100) ∧
      (∀ s, (sec.map fun s => (⟨s.action, s.betSize,
          some (allocateFrequencies mv.type (sec.map (·.action)) wp po bi).secondaryFreq⟩ :
          SecondaryRecommendation)) = some s →
        ∃ pf sf, (some (allocateFrequencies mv.type (sec.map (·.action)) wp po bi).primaryFreq :
            Option ℚ) = some pf ∧ s.frequency = some sf ∧ 50 ≤ pf ∧ pf ≤ 95 ∧ pf + sf = 100) := by
  cases sec with
  | none =>
      constructor
      · intro _
        rfl
      · intro s hs
        simp at hs
  | some s0 =>
      simp only [Option.map_some']
      constructor
      · intro hnone
        simp at hnone
      · intro s hs
        injection hs with hs
        obtain ⟨h50, h95, hsf⟩ := allocateFrequencies_bounds mv.type s0.action wp po bi
        refine ⟨(allocateFrequencies mv.type (some s0.action) wp po bi).primaryFreq,
          (allocateFrequencies mv.type (some s0.action) wp po bi).secondaryFreq,
          rfl, ?_, h50, h95, by rw [hsf]; ring⟩
        rw [← hs]

/-- Claim C10: in every recommendation produced by
`generateAIRecommendation`, if a secondary line is present then the primary
frequency lies in [50, 95] and primary plus secondary frequency equals
exactly 100; if no secondary line is present the primary frequency is
100. -/
theorem frequency_split (context : GameContext) (mp : Option BluffRates) :
    ((generateAIRecommendation context mp).secondary = none →
      (generateAIRecommendation context mp).primaryFrequency = some 100) ∧
    (∀ s, (generateAIRecommendation context mp).secondary = some s →
      ∃ pf sf, (generateAIRecommendation context mp).primaryFrequency = some pf ∧
        s.frequency = some sf ∧ 50 ≤ pf ∧ pf ≤ 95 ∧ pf + sf = 100) := by
  unfold generateAIRecommendation
  simp only []
  exact recommendation_freq_key _ _ _ _ _

set_option maxHeartbeats 4000000 in
/-- C10 witness -/
theorem frequency_split_witness :
    ∃ pf sf,
      (generateAIRecommendation
          ⟨[⟨Suit.spades, Rank.ace⟩, ⟨Suit.spades, Rank.king⟩], [], .preflop, 10, 0, 1000,
            10, 5, 2, [], false, false, none, none, none⟩ none).primaryFrequency = some pf ∧
        (⟨ActionType.call, none, some 31⟩ : SecondaryRecommendation).frequency = some sf ∧
        50 ≤ pf ∧ pf ≤ 95 ∧ pf + sf = 100 :=
  (frequency_split _ none).2 ⟨ActionType.call, none, some 31⟩ (by
    norm_num [generateAIRecommendation, calculateHandStrength, evaluatePreflopStrength,
      analyzeStackPsychology, analyzeOpponentTendencies, estimateWinProbability,
      estimateWinProbabilityRaw, calculatePotOdds, determineOptimalAction, stackAdjustments,
      determineOptimalActionMain, preflopDecision, bluffPreflopDecision, bluffDecision,
      generalDecision, buildSecondary, allocateFrequencies, isAggressive, jsMaxList,
      jsFloor, max_def, min_def,
      show rankIndex Rank.ace = 12 from rfl, show rankIndex Rank.king = 11 from rfl,
      (by decide : Rank.ace ≠ Rank.king),
      (by decide : StackStatus.deep ≠ StackStatus.short),
      (by decide : Style.balanced ≠ Style.aggressive),
      (by decide : Style.balanced ≠ Style.passive),
      (by decide : Tightness.balanced ≠ Tightness.tight),
      (by decide : Tightness.balanced ≠ Tightness.loose),
      (by decide : StackPressure.facingShort ≠ StackPressure.facingDeep),
      (by decide : ActionType.raise ≠ ActionType.bet),
      (by decide : ActionType.raise ≠ ActionType.check),
      (by decide : ActionType.raise ≠ ActionType.call),
      (by decide : ActionType.raise ≠ ActionType.fold)])
